import Mathlib

/-!
Shallow embedding of the jdotw/go-utils authentication / authorization
pipeline (packages `authn/jwt`, `authz/opa`, `opa`).

Machine integers (Unix timestamps, Go `int64`) are modelled as `Int`;
only order comparisons on them occur, never overflowing arithmetic.
Cryptographic signature verification is abstracted: a token carries a
boolean `sigValid` meaning "`Method.Verify` succeeds with the key the
key-lookup function resolves for this token".  Everything else is
translated from the Go source (and, where the control flow runs through
the vendored `golang-jwt/jwt/v4` library, from that library's
`Parser.ParseWithClaims` / `MapClaims.Valid` semantics, which the
repository's `newParser` middleware is written against).
-/

namespace GoUtils

/-- Concrete Go error values that the pipeline can return.
`jwt*` are the sentinel errors of `authn/jwt` (middleware.go lines
153-174), `invalidKeyID` is the `errors.New("invalid key id")` created in
`NewMiddleware`'s key function, `lib*` are the inner errors set by
`golang-jwt/v4` `MapClaims.Valid`, `sigVerificationFailed` is the error
returned by `SigningMethod.Verify` on a bad signature or unusable key,
`deniedByPolicy` is `authzerrors.ErrDeniedByPolicy`, and `infra` stands
for opaque infrastructure errors (network faults, rego evaluation
faults), distinguished by an index. -/
inductive GoErr
  | jwtNotPresent
  | jwtInvalid
  | jwtExpired
  | jwtMalformed
  | jwtNotActive
  | unexpectedSigningMethod
  | invalidKeyID
  | libTokenExpired
  | libUsedBeforeIssued
  | libNotValidYet
  | sigVerificationFailed
  | otherValidation
  | deniedByPolicy
  | infra (code : Nat)
deriving DecidableEq

/-- JWT signing algorithms (instances of `jwt.SigningMethod`).
`NewMiddleware` configures `jwt.SigningMethodRS256`. -/
inductive SigningMethod
  | RS256
  | RS384
  | HS256
  | ES256
deriving DecidableEq

/-- The validation-relevant part of a decoded claims map
(`jwt.MapClaims`): optional `exp`, `iat`, `nbf` Unix timestamps. -/
structure MapClaims where
  exp : Option Int
  iat : Option Int
  nbf : Option Int
deriving DecidableEq

/-- A bearer token as the parser sees it.  `wellFormed` is true when the
string has three segments and the header and claims decode
(`ParseUnverified` succeeds); `alg` is the header's algorithm; `kid` the
header key id (absent or non-string header value is `none`); `sigValid`
abstracts whether `Method.Verify` succeeds under the key resolved by the
authenticator's key function. -/
structure TokenRepr where
  wellFormed : Bool
  alg : SigningMethod
  kid : Option String
  claims : MapClaims
  sigValid : Bool
deriving DecidableEq

/-- One JWKS entry (`jwt.JSONWebKeys`). -/
structure JSONWebKeys where
  Kty : String
  Kid : String
  Use : String
  N : String
  E : String
  X5c : List String
deriving DecidableEq

/-- PEM wrapping of `X5c[0]` done in `NewMiddleware`'s key function. -/
def certPEM (x : String) : String :=
  "-----BEGIN CERTIFICATE-----\n" ++ x ++ "\n-----END CERTIFICATE-----"

/-- Result of the key-lookup loop: either a runtime crash
(index-out-of-range on `X5c[0]` of an entry with empty `x5c`) or the
final value of the `cert` variable (`none` models the empty string it is
initialised to). -/
inductive KfLoopOut
  | crash
  | done (cert : Option String)
deriving DecidableEq

/-- The `for k := range a.jwks.Keys` loop of `NewMiddleware` (middleware.go
lines 280-284): on a kid match it evaluates `Keys[k].X5c[0]` — crashing if
`X5c` is empty — and overwrites `cert`; the loop never breaks, so the last
match wins. -/
def kfLoop (kid : Option String) : List JSONWebKeys → Option String → KfLoopOut
  | [], cert => .done cert
  | k :: rest, cert =>
    if kid = some k.Kid then
      match k.X5c with
      | [] => .crash
      | c :: _ => kfLoop kid rest (some (certPEM c))
    else kfLoop kid rest cert

/-- Outcome of the key function: crash, an error return, or a key
(`jwt.ParseRSAPublicKeyFromPEM`'s error is discarded in the source, so a
found cert always yields a nil-error return; whether the resulting key
actually verifies the signature is folded into `TokenRepr.sigValid`). -/
inductive KfOutcome
  | crash
  | err (e : GoErr)
  | ok
deriving DecidableEq

/-- The key function `kf` built in `NewMiddleware` (middleware.go lines
277-293): loop over the JWKS, then `len(cert) == 0` means the kid was not
found and `errors.New("invalid key id")` is returned. -/
def kf (keys : List JSONWebKeys) (kid : Option String) : KfOutcome :=
  match kfLoop kid keys none with
  | .crash => .crash
  | .done none => .err GoErr.invalidKeyID
  | .done (some _) => .ok

/-- The key function passed to `jwt.ParseWithClaims` by `parseTokenString`
(middleware.go lines 314-320): reject a signing method different from the
expected one before consulting the authenticator's key function. -/
def innerKeyFunc (expected : SigningMethod) (keys : List JSONWebKeys)
    (t : TokenRepr) : KfOutcome :=
  if t.alg = expected then kf keys t.kid
  else .err GoErr.unexpectedSigningMethod

/-- `*jwt.ValidationError` of `golang-jwt/v4`: the bitmask flags the
pipeline inspects plus the `Inner` error. -/
structure VErr where
  malformed : Bool
  unverifiable : Bool
  signatureInvalid : Bool
  expired : Bool
  issuedAt : Bool
  notValidYet : Bool
  inner : Option GoErr
deriving DecidableEq

/-- A `ValidationError` with no flags and no inner error. -/
def VErr.empty : VErr := ⟨false, false, false, false, false, false, none⟩

/-- `vErr.valid()` in `golang-jwt/v4` checks `Errors == 0`; `hasErrors`
is its negation. -/
def VErr.hasErrors (v : VErr) : Bool :=
  v.malformed || v.unverifiable || v.signatureInvalid ||
    v.expired || v.issuedAt || v.notValidYet

/-- `exp` check of `MapClaims.Valid` (`VerifyExpiresAt(now, false)`):
fails exactly when `exp` is present, non-zero and strictly in the past —
the library treats a numeric claim value of `0` as unset, and with
`required = false` an unset claim passes. -/
def expFails (m : MapClaims) (now : Int) : Bool :=
  match m.exp with
  | none => false
  | some x => if x = 0 then false else decide (x < now)

/-- `iat` check of `MapClaims.Valid` (`VerifyIssuedAt(now, false)`):
fails exactly when `iat` is present, non-zero and strictly in the
future — a claim value of `0` is treated as unset and passes. -/
def iatFails (m : MapClaims) (now : Int) : Bool :=
  match m.iat with
  | none => false
  | some x => if x = 0 then false else decide (now < x)

/-- `nbf` check of `MapClaims.Valid` (`VerifyNotBefore(now, false)`):
fails exactly when `nbf` is present, non-zero and strictly in the
future — a claim value of `0` is treated as unset and passes. -/
def nbfFails (m : MapClaims) (now : Int) : Bool :=
  match m.nbf with
  | none => false
  | some x => if x = 0 then false else decide (now < x)

/-- `MapClaims.Valid` of `golang-jwt/v4` evaluated at time `now`: checks
`exp`, then `iat`, then `nbf`, each failure setting its flag and
overwriting `Inner`. -/
def mapClaimsVErr (m : MapClaims) (now : Int) : VErr :=
  let v := VErr.empty
  let v := if expFails m now then
      { v with expired := true, inner := some GoErr.libTokenExpired } else v
  let v := if iatFails m now then
      { v with issuedAt := true, inner := some GoErr.libUsedBeforeIssued } else v
  let v := if nbfFails m now then
      { v with notValidYet := true, inner := some GoErr.libNotValidYet } else v
  v

/-- Result of `jwt.ParseWithClaims`: a crash propagated out of the key
function, a `*ValidationError`, or a token with its `Valid` flag (the
library sets `Valid := true` exactly when it returns a nil error). -/
inductive ParseResult
  | crash
  | err (v : VErr)
  | ok (tokenValid : Bool)
deriving DecidableEq

/-- `Parser.ParseWithClaims` of `golang-jwt/v4` as invoked by
`parseTokenString`: `ParseUnverified` failure → malformed; key-function
error → `ValidationErrorUnverifiable` wrapping it as `Inner`; then claims
validation, then signature verification (a failure sets
`ValidationErrorSignatureInvalid` and overwrites `Inner`); a clean
`ValidationError` yields a valid token. -/
def parseWithClaims (now : Int) (expected : SigningMethod)
    (keys : List JSONWebKeys) (t : TokenRepr) : ParseResult :=
  if t.wellFormed = false then
    .err { VErr.empty with malformed := true }
  else
    match innerKeyFunc expected keys t with
    | .crash => .crash
    | .err e => .err { VErr.empty with unverifiable := true, inner := some e }
    | .ok =>
      let v := mapClaimsVErr t.claims now
      let v := if t.sigValid = false then
          { v with signatureInvalid := true,
                   inner := some GoErr.sigVerificationFailed } else v
      if v.hasErrors then .err v else .ok true

/-- The `switch` on the `*jwt.ValidationError` in `newParser`
(middleware.go lines 343-373): `Malformed`, then `Expired`, then
`NotValidYet` flags, then a non-nil `Inner` is returned as-is, and
otherwise the original validation error falls through. -/
def mapParseError (v : VErr) : GoErr :=
  if v.malformed then GoErr.jwtMalformed
  else if v.expired then GoErr.jwtExpired
  else if v.notValidYet then GoErr.jwtNotActive
  else
    match v.inner with
    | some i => i
    | none => GoErr.otherValidation

/-- The rego result set (`rego.ResultSet`), abstracted to the one method
the middleware consults, `results.Allowed()`. -/
structure RegoResultSet where
  allowed : Bool
deriving DecidableEq

/-- `AuthorizationResponse` of `authz/opa` (middleware.go lines 82-84):
the decoded `{result: bool}` body of the sidecar's reply. -/
structure AuthorizationResponse where
  Result : Bool
deriving DecidableEq

/-- The value stored under `AuthorizationResultsContextKey`: the rego
result set (in-process variant) or the decoded HTTP response (sidecar
variant). -/
inductive AuthzResult
  | rego (r : RegoResultSet)
  | http (r : AuthorizationResponse)
deriving DecidableEq

/-- The observable content of the per-call `context.Context`: the raw
token under `JWTContextKey`, the decoded token under
`JWTDecodedTokenContextKey`, the claims under `JWTClaimsContextKey`, and
the policy results under `AuthorizationResultsContextKey`.  A fresh
inbound context has all four absent except what the transport layer set. -/
structure Ctx where
  jwtToken : Option TokenRepr
  decodedToken : Option TokenRepr
  claims : Option MapClaims
  authzResults : Option AuthzResult
deriving DecidableEq

/-- Outcome of one middleware stage or endpoint call: a runtime crash, a
`(nil, err)` return, or a success value. -/
inductive MWOut (α : Type)
  | crash
  | error (e : GoErr)
  | ok (a : α)
deriving DecidableEq

/-- `queryInput` of `authz/opa` (middleware.go lines 38-48): the policy
input `{request, claims}` where claims come from
`ctx.Value(jwt.JWTClaimsContextKey)`. -/
structure QueryInput (Req : Type) where
  request : Req
  claims : Option MapClaims

/-- `inputForRequest` (middleware.go lines 43-48). -/
def inputForRequest {Req : Type} (ctx : Ctx) (req : Req) : QueryInput Req :=
  ⟨req, ctx.claims⟩

/-- `extractTokenFromContext` (middleware.go lines 298-305) composed with
the parse-and-map logic of the `newParser` middleware body (middleware.go
lines 330-383), for the authenticator built by `NewMiddleware` (expected
method RS256, key function `kf` over `keys`): everything the verification
stage does before deciding whether to call `next`.  On full success it
returns the context decorated with the decoded token and its claims. -/
def newMiddlewareStage (now : Int) (keys : List JSONWebKeys) (ctx : Ctx) :
    MWOut Ctx :=
  match ctx.jwtToken with
  | none => .error GoErr.jwtNotPresent
  | some t =>
    match parseWithClaims now SigningMethod.RS256 keys t with
    | .crash => .crash
    | .err v => .error (mapParseError v)
    | .ok tokenValid =>
      if tokenValid = false then .error GoErr.jwtInvalid
      else .ok { ctx with decodedToken := some t, claims := some t.claims }

/-- The per-call body of `NewInProcessMiddleware` (middleware.go lines
60-78) up to the decision whether to call `next`: evaluate the prepared
query on `inputForRequest`, propagate an evaluation error, map a
not-allowed result set to `ErrDeniedByPolicy`, and otherwise attach the
results to the context.  `evalF` abstracts `query.Eval`. -/
def inProcessStage {Req : Type}
    (evalF : QueryInput Req → Except GoErr RegoResultSet)
    (ctx : Ctx) (req : Req) : MWOut Ctx :=
  match evalF (inputForRequest ctx req) with
  | .error e => .error e
  | .ok results =>
    if results.allowed = false then .error GoErr.deniedByPolicy
    else .ok { ctx with authzResults := some (AuthzResult.rego results) }

/-- The per-call body of `NewSidecarMiddleware` (middleware.go lines
97-115) up to the decision whether to call `next`: query the OPA client,
propagate a transport/decode error, map `result=false` to
`ErrDeniedByPolicy`, and otherwise attach the decoded response.  `queryF`
abstracts `c.Query` together with the JSON decode into
`AuthorizationResponse`. -/
def sidecarStage {Req : Type}
    (queryF : QueryInput Req → Except GoErr AuthorizationResponse)
    (ctx : Ctx) (req : Req) : MWOut Ctx :=
  match queryF (inputForRequest ctx req) with
  | .error e => .error e
  | .ok resp =>
    if resp.Result = false then .error GoErr.deniedByPolicy
    else .ok { ctx with authzResults := some (AuthzResult.http resp) }

/-- An endpoint instrumented with a handler-invocation counter: the
second component counts how many times the innermost wrapped handler ran
during the call. -/
def CEndpoint (Req Resp : Type) : Type :=
  Ctx → Req → MWOut Resp × Nat

/-- A terminal handler lifted to a counting endpoint: running it counts
as one invocation. -/
def liftHandler {Req Resp : Type} (h : Ctx → Req → MWOut Resp) :
    CEndpoint Req Resp :=
  fun ctx req => (h ctx req, 1)

/-- The `newParser` middleware (for the `NewMiddleware` authenticator)
wrapping a counting endpoint: on any stage failure it returns without
touching `next`. -/
def wrapParser {Req Resp : Type} (now : Int) (keys : List JSONWebKeys)
    (next : CEndpoint Req Resp) : CEndpoint Req Resp :=
  fun ctx req =>
    match newMiddlewareStage now keys ctx with
    | .crash => (.crash, 0)
    | .error e => (.error e, 0)
    | .ok ctx' => next ctx' req

/-- The `NewInProcessMiddleware` stage wrapping a counting endpoint. -/
def wrapInProcess {Req Resp : Type}
    (evalF : QueryInput Req → Except GoErr RegoResultSet)
    (next : CEndpoint Req Resp) : CEndpoint Req Resp :=
  fun ctx req =>
    match inProcessStage evalF ctx req with
    | .crash => (.crash, 0)
    | .error e => (.error e, 0)
    | .ok ctx' => next ctx' req

/-- The `NewSidecarMiddleware` stage wrapping a counting endpoint. -/
def wrapSidecar {Req Resp : Type}
    (queryF : QueryInput Req → Except GoErr AuthorizationResponse)
    (next : CEndpoint Req Resp) : CEndpoint Req Resp :=
  fun ctx req =>
    match sidecarStage queryF ctx req with
    | .crash => (.crash, 0)
    | .error e => (.error e, 0)
    | .ok ctx' => next ctx' req

/-- Go `os.Getenv`: an unset variable reads as the empty string. -/
def goGetenv (v : Option String) : String := v.getD ""

/-- The `h := os.Getenv(...); if len(h) == 0 { h = default }` pattern of
`NewSidecarMiddleware` (middleware.go lines 87-94). -/
def envOrDefault (v : Option String) (d : String) : String :=
  let s := goGetenv v
  if s.length = 0 then d else s

/-- The base URL handed to `NewOPAClient` by `NewSidecarMiddleware`
(middleware.go line 95), as a function of the `OPA_HOST` and `OPA_PORT`
environment variables. -/
def sidecarBaseURL (opaHost opaPort : Option String) : String :=
  "http://" ++ envOrDefault opaHost "localhost" ++ ":" ++
    envOrDefault opaPort "8181"

/-- A Go `context.Context` value, tracked by provenance: the root
`context.Background()`, the context of an inbound call (distinguished by
an index), or a derived context produced by
`httptrace.WithClientTrace(parent, ...)`.  Cancelling a context cancels
exactly the work scoped to contexts derived from it. -/
inductive GoContext
  | background
  | inboundCall (id : Nat)
  | clientTrace (parent : GoContext)
deriving DecidableEq

/-- The root ancestor of a context: the context whose cancellation (or
deadline) governs it. -/
def GoContext.base : GoContext → GoContext
  | background => background
  | inboundCall n => inboundCall n
  | clientTrace p => p.base

/-- The JSON body `QueryRequest` of `opa.Query` (opa.go lines 39-41):
marshals as `{"input": <data>}`. -/
structure QueryRequest (Input : Type) where
  input : Input
deriving DecidableEq

/-- The outbound HTTP request `opaClient.Query` constructs: the context
it is bound to, the method, URL, JSON body, and Content-Type header. -/
structure OutboundRequest (Input : Type) where
  reqCtx : GoContext
  method : String
  url : String
  body : QueryRequest Input
  contentType : String
deriving DecidableEq

/-- `opaClient.Query` (opa.go lines 43-66) up to the point the request is
performed: the trace context is built from `context.Background()` (opa.go
line 50), the path replaces every "." in the query with "/" (opa.go line
58), and the request is a POST of `{"input": data}` with a JSON
Content-Type.  `inboundCtx` is the `ctx` argument of `Query` — used by
the source only for logging, not for the request. -/
def opaQuery {Input : Type} (baseURL : String) (_inboundCtx : GoContext)
    (query : String) (data : Input) : OutboundRequest Input :=
  { reqCtx := GoContext.clientTrace GoContext.background
    method := "POST"
    url := baseURL ++ "/v1/" ++ String.replace query "." "/"
    body := ⟨data⟩
    contentType := "application/json" }

/-! ### Helper lemmas -/

/-- If no JWKS entry's kid matches, the lookup loop leaves `cert`
untouched. -/
theorem kfLoop_no_match (kid : Option String) (keys : List JSONWebKeys)
    (acc : Option String) (h : ∀ k ∈ keys, kid ≠ some k.Kid) :
    kfLoop kid keys acc = .done acc := by
  induction keys with
  | nil => rfl
  | cons k rest ih =>
    have hk : kid ≠ some k.Kid := h k (List.mem_cons_self k rest)
    simp only [kfLoop, if_neg hk]
    exact ih fun k' hk' => h k' (List.mem_cons_of_mem k hk')

/-- If every matching JWKS entry has a non-empty `x5c` list, the lookup
loop never crashes. -/
theorem kfLoop_safe (kid : Option String) (keys : List JSONWebKeys)
    (acc : Option String)
    (h : ∀ k ∈ keys, kid = some k.Kid → k.X5c ≠ []) :
    kfLoop kid keys acc ≠ .crash := by
  induction keys generalizing acc with
  | nil => simp [kfLoop]
  | cons k rest ih =>
    by_cases hk : kid = some k.Kid
    · have hne : k.X5c ≠ [] := h k (List.mem_cons_self k rest) hk
      cases hx : k.X5c with
      | nil => exact absurd hx hne
      | cons c cs =>
        simp only [kfLoop, if_pos hk, hx]
        exact ih _ fun k' hk' => h k' (List.mem_cons_of_mem k hk')
    · simp only [kfLoop, if_neg hk]
      exact ih _ fun k' hk' => h k' (List.mem_cons_of_mem k hk')

/-- Closed form of `MapClaims.Valid`: each flag records its own check and
`Inner` holds the failure recorded last. -/
theorem mapClaimsVErr_spec (m : MapClaims) (now : Int) :
    mapClaimsVErr m now =
      { malformed := false, unverifiable := false, signatureInvalid := false
        expired := expFails m now, issuedAt := iatFails m now
        notValidYet := nbfFails m now
        inner :=
          if nbfFails m now then some GoErr.libNotValidYet
          else if iatFails m now then some GoErr.libUsedBeforeIssued
          else if expFails m now then some GoErr.libTokenExpired
          else none } := by
  cases he : expFails m now <;> cases hi : iatFails m now <;>
    cases hn : nbfFails m now <;>
    simp [mapClaimsVErr, he, hi, hn, VErr.empty]

/-- The parser only ever reports a valid token: `ParseWithClaims` sets
`token.Valid` exactly when it returns a nil error. -/
theorem parse_ok_true {now : Int} {expected : SigningMethod}
    {keys : List JSONWebKeys} {t : TokenRepr} {b : Bool}
    (h : parseWithClaims now expected keys t = .ok b) : b = true := by
  unfold parseWithClaims at h
  split at h
  · simp at h
  · split at h
    · simp at h
    · simp at h
    · simp only at h
      split at h <;> split at h <;> simp_all

/-- If the exp claim is absent, zero (treated as unset) or not in the
past, the exp check passes. -/
theorem expFails_false {m : MapClaims} {now : Int}
    (h : ∀ x, m.exp = some x → x = 0 ∨ now ≤ x) : expFails m now = false := by
  unfold expFails
  cases hx : m.exp with
  | none => rfl
  | some x =>
    rcases h x hx with h0 | hle
    · simp [h0]
    · by_cases h0 : x = 0
      · simp [h0]
      · simp [h0, not_lt.mpr hle]

/-- If the nbf claim is absent, zero (treated as unset) or not in the
future, the nbf check passes. -/
theorem nbfFails_false {m : MapClaims} {now : Int}
    (h : ∀ x, m.nbf = some x → x = 0 ∨ x ≤ now) : nbfFails m now = false := by
  unfold nbfFails
  cases hx : m.nbf with
  | none => rfl
  | some x =>
    rcases h x hx with h0 | hle
    · simp [h0]
    · by_cases h0 : x = 0
      · simp [h0]
      · simp [h0, not_lt.mpr hle]

/-! ### Claims -/

/-- C1: for every well-formed token whose signing algorithm differs from
the authenticator's configured RS256, verification returns the
unexpected-signing-method error — for every key set and in particular
even when the token's signature would validate (any `sigValid`),
because the algorithm check in `parseTokenString`'s key function runs
before any key resolution or signature verification. -/
theorem C1_alg_mismatch_rejected (now : Int) (keys : List JSONWebKeys)
    (ctx : Ctx) (t : TokenRepr) (htok : ctx.jwtToken = some t)
    (hwf : t.wellFormed = true) (halg : t.alg ≠ SigningMethod.RS256) :
    newMiddlewareStage now keys ctx = .error GoErr.unexpectedSigningMethod := by
  simp [newMiddlewareStage, htok, parseWithClaims, hwf, innerKeyFunc, halg,
    mapParseError, VErr.empty]

/-- Witness for C1: a token signed with HS256 (and a signature that
would validate, `sigValid = true`) whose kid even exists in the key set
is still rejected with the unexpected-signing-method error. -/
theorem C1_alg_mismatch_rejected_witness :
    newMiddlewareStage 0
        [⟨"RSA", "k1", "sig", "", "", ["certdata"]⟩]
        ⟨some ⟨true, SigningMethod.HS256, some "k1", ⟨none, none, none⟩, true⟩,
          none, none, none⟩
      = .error GoErr.unexpectedSigningMethod :=
  C1_alg_mismatch_rejected 0 _ _ _ rfl rfl (by decide)

/-- C4, counterexample: the claim "for every token whose header key
identifier is absent from the current KeySet, verification returns the
InvalidKeyID error kind" is false as stated — a well-formed token whose
kid ("absent") appears nowhere in the key set but whose algorithm is
HS256 is rejected with the unexpected-signing-method error instead,
because the algorithm check in the key function runs before the key
lookup. -/
theorem C4_invalid_kid_counterexample :
    ("absent" : String) ≠ "k1" ∧
    newMiddlewareStage 0
        [⟨"RSA", "k1", "sig", "", "", ["certdata"]⟩]
        ⟨some ⟨true, SigningMethod.HS256, some "absent", ⟨none, none, none⟩,
          true⟩, none, none, none⟩
      ≠ .error GoErr.invalidKeyID := by
  constructor
  · decide
  · decide

/-- C4, amended: for every well-formed token carrying the configured
RS256 algorithm whose header key identifier is absent from the current
KeySet, verification returns the invalid-key-id error kind. -/
theorem C4_invalid_kid (now : Int) (keys : List JSONWebKeys) (ctx : Ctx)
    (t : TokenRepr) (htok : ctx.jwtToken = some t)
    (hwf : t.wellFormed = true) (halg : t.alg = SigningMethod.RS256)
    (hkid : ∀ k ∈ keys, t.kid ≠ some k.Kid) :
    newMiddlewareStage now keys ctx = .error GoErr.invalidKeyID := by
  have hkf : kf keys t.kid = .err GoErr.invalidKeyID := by
    unfold kf
    rw [kfLoop_no_match t.kid keys none hkid]
  simp [newMiddlewareStage, htok, parseWithClaims, hwf, innerKeyFunc, halg,
    hkf, mapParseError, VErr.empty]

/-- Witness for C4 (amended): an RS256 token with kid "absent" against a
key set holding only kid "k1" is rejected with the invalid-key-id
error. -/
theorem C4_invalid_kid_witness :
    newMiddlewareStage 0
        [⟨"RSA", "k1", "sig", "", "", ["certdata"]⟩]
        ⟨some ⟨true, SigningMethod.RS256, some "absent", ⟨none, none, none⟩,
          true⟩, none, none, none⟩
      = .error GoErr.invalidKeyID :=
  C4_invalid_kid 0 _ _ _ rfl rfl rfl (by decide)

/-- C10, counterexample: the claim that the key-lookup function accesses
`X5c[0]` of a kid-matching entry only when its `x5c` list is non-empty
is false — on a key set whose single entry has kid "k1" and an empty
`x5c` list, looking up a token with kid "k1" evaluates `X5c[0]` of the
empty list (an index-out-of-range crash). -/
theorem C10_kf_oob_counterexample :
    kf [⟨"RSA", "k1", "sig", "", "", []⟩] (some "k1") = .crash := by
  decide

/-- C10, amended: the key-lookup function built by `NewMiddleware`
terminates without out-of-bounds access provided every KeySet entry
whose kid matches the token's kid has a non-empty `x5c` certificate
list (it unconditionally accesses `X5c[0]` of every matching entry). -/
theorem C10_kf_safe (keys : List JSONWebKeys) (kid : Option String)
    (h : ∀ k ∈ keys, kid = some k.Kid → k.X5c ≠ []) :
    kf keys kid ≠ .crash := by
  unfold kf
  cases hl : kfLoop kid keys none with
  | crash => exact absurd hl (kfLoop_safe kid keys none h)
  | done c => cases c <;> simp

/-- Witness for C10 (amended): on a key set whose matching entry has a
non-empty `x5c` list, the lookup does not crash. -/
theorem C10_kf_safe_witness :
    kf [⟨"RSA", "k1", "sig", "", "", ["certdata"]⟩] (some "k1") ≠ .crash :=
  C10_kf_safe _ _ (by decide)

/-- C5, counterexample: the claim "a token that parses, has a known key
identifier and the expected algorithm but whose signature does not
verify yields the ErrTokenInvalid kind" is false — such a token is
rejected with the signature-verification error that the JWT library
stores as the validation error's `Inner` (returned by the `e.Inner`
branch of `newParser`), not with `ErrTokenInvalid`; the
`!token.Valid → ErrTokenInvalid` branch never fires because the library
returns a non-nil error for every invalid token. -/
theorem C5_bad_signature_counterexample :
    newMiddlewareStage 0
        [⟨"RSA", "k1", "sig", "", "", ["certdata"]⟩]
        ⟨some ⟨true, SigningMethod.RS256, some "k1", ⟨none, none, none⟩,
          false⟩, none, none, none⟩
      = .error GoErr.sigVerificationFailed ∧
    newMiddlewareStage 0
        [⟨"RSA", "k1", "sig", "", "", ["certdata"]⟩]
        ⟨some ⟨true, SigningMethod.RS256, some "k1", ⟨none, none, none⟩,
          false⟩, none, none, none⟩
      ≠ .error GoErr.jwtInvalid := by
  constructor
  · decide
  · decide

/-- C5, amended: for every token that parses, has a key identifier the
key function resolves, carries the expected RS256 algorithm and has
passing time-based claims, an invalid signature makes verification
return the library's signature-verification error (the validation
error's inner error) — not the package-level ErrTokenInvalid, whose
branch is unreachable on this path. -/
theorem C5_bad_signature (now : Int) (keys : List JSONWebKeys) (ctx : Ctx)
    (t : TokenRepr) (htok : ctx.jwtToken = some t)
    (hwf : t.wellFormed = true) (halg : t.alg = SigningMethod.RS256)
    (hkf : kf keys t.kid = .ok)
    (hexp : ∀ x, t.claims.exp = some x → now ≤ x)
    (hnbf : ∀ x, t.claims.nbf = some x → x ≤ now)
    (hsig : t.sigValid = false) :
    newMiddlewareStage now keys ctx = .error GoErr.sigVerificationFailed := by
  have he := expFails_false fun x hx => Or.inr (hexp x hx)
  have hn := nbfFails_false fun x hx => Or.inr (hnbf x hx)
  simp [newMiddlewareStage, htok, parseWithClaims, hwf, innerKeyFunc, halg,
    hkf, hsig, mapClaimsVErr_spec, he, hn, VErr.hasErrors, mapParseError]

/-- Witness for C5 (amended): a well-formed RS256 token with resolvable
kid "k1", no time claims and an invalid signature yields the
signature-verification error. -/
theorem C5_bad_signature_witness :
    newMiddlewareStage 0
        [⟨"RSA", "k1", "sig", "", "", ["certdata"]⟩]
        ⟨some ⟨true, SigningMethod.RS256, some "k1", ⟨none, none, none⟩,
          false⟩, none, none, none⟩
      = .error GoErr.sigVerificationFailed :=
  C5_bad_signature 0 _ _ _ rfl rfl rfl (by decide)
    (by intro x hx; cases hx) (by intro x hx; cases hx) rfl

/-- C6, counterexample: the claim "exp strictly in the past yields
ErrTokenExpired" is false as stated — the JWT library treats a numeric
claim value of `0` as unset, so a well-formed RS256 token with a
resolvable kid, a good signature and `exp = 0`, verified at time 1
(when `exp` is strictly in the past), verifies successfully and is not
rejected with the token-expired kind. -/
theorem C6_exp_zero_counterexample :
    newMiddlewareStage 1 [⟨"RSA", "k1", "sig", "", "", ["certdata"]⟩]
        ⟨some ⟨true, SigningMethod.RS256, some "k1", ⟨some 0, none, none⟩,
          true⟩, none, none, none⟩
      ≠ .error GoErr.jwtExpired ∧
    newMiddlewareStage 1 [⟨"RSA", "k1", "sig", "", "", ["certdata"]⟩]
        ⟨some ⟨true, SigningMethod.RS256, some "k1", ⟨some 0, none, none⟩,
          true⟩, none, none, none⟩
      = .ok ⟨some ⟨true, SigningMethod.RS256, some "k1",
          ⟨some 0, none, none⟩, true⟩,
          some ⟨true, SigningMethod.RS256, some "k1", ⟨some 0, none, none⟩,
            true⟩,
          some ⟨some 0, none, none⟩, none⟩ := by
  constructor
  · decide
  · decide

/-- C6, amended: verification maps time-based claim failures of a token
the key function can resolve to distinct stable kinds, where a claim
value of `0` counts as unset — a non-zero `exp` strictly in the past
yields the token-expired kind (whatever the other claims or the
signature do), a non-zero `nbf` strictly in the future (with `exp`
passing) yields the token-not-active kind, a structurally unparsable
token yields the token-malformed kind unconditionally — and
re-verifying the same token at the same evaluation time yields the same
outcome. -/
theorem C6_time_claim_mapping (now : Int) (keys : List JSONWebKeys)
    (ctx : Ctx) (t : TokenRepr) (htok : ctx.jwtToken = some t) :
    (t.wellFormed = false →
      newMiddlewareStage now keys ctx = .error GoErr.jwtMalformed) ∧
    (t.wellFormed = true → t.alg = SigningMethod.RS256 →
      kf keys t.kid = .ok →
      ((∃ x, t.claims.exp = some x ∧ x ≠ 0 ∧ x < now) →
        newMiddlewareStage now keys ctx = .error GoErr.jwtExpired) ∧
      ((∀ x, t.claims.exp = some x → x = 0 ∨ now ≤ x) →
        (∃ x, t.claims.nbf = some x ∧ x ≠ 0 ∧ now < x) →
        newMiddlewareStage now keys ctx = .error GoErr.jwtNotActive)) ∧
    newMiddlewareStage now keys ctx = newMiddlewareStage now keys ctx := by
  refine ⟨?_, ?_, rfl⟩
  · intro hwf
    simp [newMiddlewareStage, htok, parseWithClaims, hwf, mapParseError,
      VErr.empty]
  · intro hwf halg hkf
    constructor
    · intro hexp
      have he : expFails t.claims now = true := by
        obtain ⟨x, hx, h0, hlt⟩ := hexp
        unfold expFails
        rw [hx]
        simp [h0, hlt]
      cases hs : t.sigValid <;>
        simp [newMiddlewareStage, htok, parseWithClaims, hwf, innerKeyFunc,
          halg, hkf, hs, mapClaimsVErr_spec, he, VErr.hasErrors, mapParseError]
    · intro hexp hnbf
      have he := expFails_false hexp
      have hn : nbfFails t.claims now = true := by
        obtain ⟨x, hx, h0, hlt⟩ := hnbf
        unfold nbfFails
        rw [hx]
        simp [h0, hlt]
      cases hs : t.sigValid <;>
        simp [newMiddlewareStage, htok, parseWithClaims, hwf, innerKeyFunc,
          halg, hkf, hs, mapClaimsVErr_spec, he, hn, VErr.hasErrors,
          mapParseError]

/-- Witness for C6 (amended): a malformed token yields the malformed
kind, a token with `exp = -5` evaluated at time 0 yields the expired
kind, and a token with `nbf = 5` evaluated at time 0 yields the
not-active kind. -/
theorem C6_time_claim_mapping_witness :
    newMiddlewareStage 0 [⟨"RSA", "k1", "sig", "", "", ["certdata"]⟩]
        ⟨some ⟨false, SigningMethod.RS256, some "k1", ⟨none, none, none⟩,
          true⟩, none, none, none⟩
      = .error GoErr.jwtMalformed ∧
    newMiddlewareStage 0 [⟨"RSA", "k1", "sig", "", "", ["certdata"]⟩]
        ⟨some ⟨true, SigningMethod.RS256, some "k1",
          ⟨some (-5), none, none⟩, true⟩, none, none, none⟩
      = .error GoErr.jwtExpired ∧
    newMiddlewareStage 0 [⟨"RSA", "k1", "sig", "", "", ["certdata"]⟩]
        ⟨some ⟨true, SigningMethod.RS256, some "k1",
          ⟨none, none, some 5⟩, true⟩, none, none, none⟩
      = .error GoErr.jwtNotActive := by
  refine ⟨(C6_time_claim_mapping 0 _ _ _ rfl).1 rfl, ?_, ?_⟩
  · exact ((C6_time_claim_mapping 0 _ _ _ rfl).2.1 rfl rfl (by decide)).1
      ⟨-5, rfl, by norm_num, by norm_num⟩
  · exact ((C6_time_claim_mapping 0 _ _ _ rfl).2.1 rfl rfl (by decide)).2
      (by intro x hx; cases hx) ⟨5, rfl, by norm_num, by norm_num⟩

/-- C2: whenever the policy evaluates to a denial — the embedded variant's
result set is not allowed, the remote variant's decoded response carries
`result = false` — both decision points return the same distinguished
`ErrDeniedByPolicy` kind, so for that input the denial outcome is
identical regardless of which variant is used. -/
theorem C2_denial_uniform {Req : Type}
    (evalF : QueryInput Req → Except GoErr RegoResultSet)
    (queryF : QueryInput Req → Except GoErr AuthorizationResponse)
    (ctx : Ctx) (req : Req) (r : RegoResultSet)
    (resp : AuthorizationResponse)
    (he : evalF (inputForRequest ctx req) = .ok r)
    (hr : r.allowed = false)
    (hq : queryF (inputForRequest ctx req) = .ok resp)
    (hresp : resp.Result = false) :
    inProcessStage evalF ctx req = .error GoErr.deniedByPolicy ∧
    sidecarStage queryF ctx req = .error GoErr.deniedByPolicy ∧
    inProcessStage evalF ctx req = sidecarStage queryF ctx req := by
  have h1 : inProcessStage evalF ctx req = .error GoErr.deniedByPolicy := by
    simp [inProcessStage, he, hr]
  have h2 : sidecarStage queryF ctx req = .error GoErr.deniedByPolicy := by
    simp [sidecarStage, hq, hresp]
  exact ⟨h1, h2, h1.trans h2.symm⟩

/-- Witness for C2: with an embedded evaluation whose result set is not
allowed and a remote endpoint answering `{"result": false}`, both
variants produce the denied-by-policy error on the same call. -/
theorem C2_denial_uniform_witness :
    inProcessStage (fun _ : QueryInput Nat => .ok ⟨false⟩)
        ⟨none, none, none, none⟩ 0 = .error GoErr.deniedByPolicy ∧
    sidecarStage (fun _ : QueryInput Nat => .ok ⟨false⟩)
        ⟨none, none, none, none⟩ 0 = .error GoErr.deniedByPolicy ∧
    inProcessStage (fun _ : QueryInput Nat => .ok ⟨false⟩)
        ⟨none, none, none, none⟩ 0 =
      sidecarStage (fun _ : QueryInput Nat => .ok ⟨false⟩)
        ⟨none, none, none, none⟩ 0 :=
  C2_denial_uniform _ _ _ _ ⟨false⟩ ⟨false⟩ rfl rfl rfl rfl

/-- C3: whenever a middleware stage — verification, the embedded
authorization variant, or the remote authorization variant — returns an
error for a call, the stage's middleware returns that error and the
wrapped next endpoint is never invoked: the handler-invocation counter
of the result is zero for every wrapped endpoint. -/
theorem C3_error_short_circuits {Req Resp : Type} (now : Int)
    (keys : List JSONWebKeys)
    (evalF : QueryInput Req → Except GoErr RegoResultSet)
    (queryF : QueryInput Req → Except GoErr AuthorizationResponse)
    (next : CEndpoint Req Resp) (ctx : Ctx) (req : Req) (e : GoErr) :
    (newMiddlewareStage now keys ctx = .error e →
      wrapParser now keys next ctx req = (.error e, 0)) ∧
    (inProcessStage evalF ctx req = .error e →
      wrapInProcess evalF next ctx req = (.error e, 0)) ∧
    (sidecarStage queryF ctx req = .error e →
      wrapSidecar queryF next ctx req = (.error e, 0)) := by
  refine ⟨fun h => ?_, fun h => ?_, fun h => ?_⟩
  · simp [wrapParser, h]
  · simp [wrapInProcess, h]
  · simp [wrapSidecar, h]

/-- Witness for C3: with no token in the context the verification stage
fails, and with denying decision points both authorization stages fail;
in each case a wrapped endpoint that would report 7 invocations is never
invoked — the counter stays at zero. -/
theorem C3_error_short_circuits_witness :
    wrapParser 0 [] (fun _ _ => (MWOut.ok 0, 7))
        ⟨none, none, none, none⟩ (0 : Nat)
      = (.error GoErr.jwtNotPresent, 0) ∧
    wrapInProcess (fun _ : QueryInput Nat => .ok ⟨false⟩)
        (fun _ _ => (MWOut.ok 0, 7)) ⟨none, none, none, none⟩ 0
      = (.error GoErr.deniedByPolicy, 0) ∧
    wrapSidecar (fun _ : QueryInput Nat => .ok ⟨false⟩)
        (fun _ _ => (MWOut.ok 0, 7)) ⟨none, none, none, none⟩ 0
      = (.error GoErr.deniedByPolicy, 0) := by
  refine ⟨?_, ?_, ?_⟩
  · exact (C3_error_short_circuits 0 []
      (fun _ : QueryInput Nat => .ok (⟨false⟩ : RegoResultSet))
      (fun _ => .ok ⟨false⟩) _ _ _ _).1 rfl
  · exact (C3_error_short_circuits 0 []
      (fun _ : QueryInput Nat => .ok (⟨false⟩ : RegoResultSet))
      (fun _ => .ok ⟨false⟩) _ _ _ _).2.1 rfl
  · exact (C3_error_short_circuits 0 []
      (fun _ : QueryInput Nat => .ok (⟨false⟩ : RegoResultSet))
      (fun _ => .ok ⟨false⟩) _ _ _ _).2.2 rfl

/-- C9: the verification middleware is atomic with respect to the call
context — when it succeeds, the context handed to the wrapped endpoint
carries both the decoded token and its claims together; on every failure
path it returns the error and the wrapped endpoint is never invoked, so
no identity value becomes visible downstream. -/
theorem C9_identity_attach_atomic {Req Resp : Type} (now : Int)
    (keys : List JSONWebKeys) (next : CEndpoint Req Resp) (ctx : Ctx)
    (req : Req) :
    (∀ ctx', newMiddlewareStage now keys ctx = .ok ctx' →
      ∃ t, ctx.jwtToken = some t ∧ ctx'.decodedToken = some t ∧
        ctx'.claims = some t.claims ∧
        wrapParser now keys next ctx req = next ctx' req) ∧
    (∀ e, newMiddlewareStage now keys ctx = .error e →
      wrapParser now keys next ctx req = (.error e, 0)) := by
  constructor
  · intro ctx' h
    cases htok : ctx.jwtToken with
    | none => simp [newMiddlewareStage, htok] at h
    | some t =>
      cases hp : parseWithClaims now SigningMethod.RS256 keys t with
      | crash => simp [newMiddlewareStage, htok, hp] at h
      | err v => simp [newMiddlewareStage, htok, hp] at h
      | ok b =>
        have hb := parse_ok_true hp
        subst hb
        simp [newMiddlewareStage, htok, hp] at h
        subst h
        exact ⟨t, rfl, rfl, rfl,
          by simp [wrapParser, newMiddlewareStage, htok, hp]⟩
  · intro e h
    simp [wrapParser, h]

/-- Witness for C9: a fully valid token (well-formed, RS256, resolvable
kid, good signature, no failing time claims) leads to a context carrying
both the decoded token and its claims, handed to the wrapped endpoint;
and a call with no token short-circuits with the counter at zero. -/
theorem C9_identity_attach_atomic_witness :
    wrapParser 0 [⟨"RSA", "k1", "sig", "", "", ["certdata"]⟩]
        (fun c _ => (MWOut.ok c, 1))
        ⟨some ⟨true, SigningMethod.RS256, some "k1", ⟨none, none, none⟩,
          true⟩, none, none, none⟩ (0 : Nat)
      = (MWOut.ok (⟨some ⟨true, SigningMethod.RS256, some "k1",
          ⟨none, none, none⟩, true⟩,
          some ⟨true, SigningMethod.RS256, some "k1",
            ⟨none, none, none⟩, true⟩,
          some ⟨none, none, none⟩, none⟩ : Ctx), 1) ∧
    wrapParser 0 [⟨"RSA", "k1", "sig", "", "", ["certdata"]⟩]
        (fun (c : Ctx) (_ : Nat) => (MWOut.ok c, 1))
        ⟨none, none, none, none⟩ 0
      = (.error GoErr.jwtNotPresent, 0) := by
  constructor
  · obtain ⟨t, h1, h2, h3, h4⟩ :=
      (C9_identity_attach_atomic 0 [⟨"RSA", "k1", "sig", "", "", ["certdata"]⟩]
          (fun c _ => (MWOut.ok c, 1))
          ⟨some ⟨true, SigningMethod.RS256, some "k1", ⟨none, none, none⟩,
            true⟩, none, none, none⟩ (0 : Nat)).1
        ⟨some ⟨true, SigningMethod.RS256, some "k1", ⟨none, none, none⟩,
          true⟩,
          some ⟨true, SigningMethod.RS256, some "k1", ⟨none, none, none⟩,
            true⟩,
          some ⟨none, none, none⟩, none⟩ (by decide)
    exact h4
  · exact (C9_identity_attach_atomic 0 _ _ _ _).2 _ rfl

/-- C7, code bug: the remote decision request does not carry the inbound
call's context — `opaClient.Query` binds the outbound request to a trace
context derived from `context.Background()` (for every inbound context),
so at the failing input below the request's governing context is the
background context, not the inbound call's, and cancelling the inbound
call cannot cancel the in-flight decision request. -/
theorem C7_request_ctx_not_propagated :
    (∀ (inbound : GoContext) (b q : String) (d : Nat),
      (opaQuery b inbound q d).reqCtx.base = GoContext.background) ∧
    (opaQuery "http://localhost:8181" (GoContext.inboundCall 0)
        "authz.allow" (0 : Nat)).reqCtx.base ≠ GoContext.inboundCall 0 := by
  constructor
  · intro inbound b q d
    rfl
  · decide

/-- C8: the remote decision point sends a POST to `{baseURL}/v1/` followed
by the query with every "." replaced by "/", with JSON body
`{"input": <data>}` and a JSON Content-Type; and with `OPA_HOST` and
`OPA_PORT` unset (or empty) the middleware's base URL defaults to
`http://localhost:8181`. -/
theorem C8_remote_request_shape {Input : Type} (b : String) (c : GoContext)
    (q : String) (d : Input) :
    sidecarBaseURL none none = "http://localhost:8181" ∧
    (opaQuery b c q d).method = "POST" ∧
    (opaQuery b c q d).url = b ++ "/v1/" ++ String.replace q "." "/" ∧
    (opaQuery b c q d).body = ⟨d⟩ ∧
    (opaQuery b c q d).contentType = "application/json" :=
  ⟨rfl, rfl, rfl, rfl, rfl⟩

end GoUtils
